import Mathlib

/-!
Shallow embedding of the `dihedron/go-log` logging package (file `log.go` of
package `log`): severity model, mutable configuration state, line composer
(`prepareArgs` / `prepareFormatAndArgs`), the per-severity emission entry
points (`Traceln` .. `Panicf`), the raw pass-through router
(`Println` / `Printf`) and the sink/dispatch selection (`SetStream`).

Conventions of the embedding:
* Go `interface{}` arguments are modelled by their `%v` rendering (a
  `String`); for the router, which type-switches on the first argument, a
  `GoVal` distinguishes string values from other values.
* The current timestamp string (`time.Now().Format(...)`) and the result of
  `runtime.Caller(2)` / `runtime.FuncForPC` are oracle inputs (`ts`,
  `CallerResult`).
* The underlying stream-writing primitive (`fmt.Fprintln`, `fmt.Fprintf`, or
  their colour-wrapped counterparts) is modelled by a function argument
  returning the `(int, error)` pair the write would return.
* A Go `panic` (both the deliberate `panic("unrecoverable error")` and the
  runtime index-out-of-range abort in `prepareArgs` on an empty argument
  list) is an explicit `Outcome`; `Outcome.exit` stands for process
  termination (`os.Exit`), which this code never invokes.
-/

namespace GoLog

/-- Severity levels, in declaration (iota) order, `log.go` lines 26-43. -/
inductive LogLevel
  | TraceLevel
  | DebugLevel
  | InfoLevel
  | WarnLevel
  | ErrorLevel
  | FatalLevel
  | PanicLevel
  | NoneLevel
deriving DecidableEq, Repr

/-- The numeric (iota) value of a `LogLevel`. -/
def LogLevel.ordinal : LogLevel → Nat
  | .TraceLevel => 0
  | .DebugLevel => 1
  | .InfoLevel => 2
  | .WarnLevel => 3
  | .ErrorLevel => 4
  | .FatalLevel => 5
  | .PanicLevel => 6
  | .NoneLevel => 7

/-- `LogLevel.String` (the `String()` method): the severity's display tag. -/
def levelTag : LogLevel → String
  | .TraceLevel => "[T]"
  | .DebugLevel => "[D]"
  | .InfoLevel => "[I]"
  | .WarnLevel => "[W]"
  | .ErrorLevel => "[E]"
  | .FatalLevel => "[F]"
  | .PanicLevel => "[P]"
  | .NoneLevel => ""

/-- Colour attributes used by `SetStream` (`color.FgWhite` etc.). -/
inductive WriteColor
  | white
  | green
  | yellow
  | red
  | blue
  | magenta
deriving DecidableEq, Repr

/-- Which underlying write primitive a `logf`/`logln` variable holds:
`fmt.Fprintf`/`fmt.Fprintln` (plain) or `color.New(c).Fprintf`/`Fprintln`. -/
inductive WritePrim
  | plain
  | colored (c : WriteColor)
deriving DecidableEq, Repr

/-- A sink handle; `isFile` records whether the Go value's dynamic type is
`*os.File` (the type assertion in `SetStream`). -/
structure Stream where
  id : Nat
  isFile : Bool
deriving DecidableEq, Repr

/-- The stored `logStream`: either the handle as given, or wrapped by
`colorable.NewColorable`. -/
inductive StoredStream
  | raw (s : Stream)
  | colorable (s : Stream)
deriving DecidableEq, Repr

/-- The package-level mutable state (`logLevel`, `logStream`,
`logTimeFormat`, `logPrintSourceInfo`, `logPrintCallerInfo` and the fourteen
dispatch variables `logTracef` .. `logPanicln`). -/
structure LogState where
  logLevel : LogLevel
  logStream : StoredStream
  logTimeFormat : String
  logPrintSourceInfo : Int
  logPrintCallerInfo : Bool
  logTracef : WritePrim
  logDebugf : WritePrim
  logInfof : WritePrim
  logWarnf : WritePrim
  logErrorf : WritePrim
  logFatalf : WritePrim
  logPanicf : WritePrim
  logTraceln : WritePrim
  logDebugln : WritePrim
  logInfoln : WritePrim
  logWarnln : WritePrim
  logErrorln : WritePrim
  logFatalln : WritePrim
  logPanicln : WritePrim
deriving DecidableEq, Repr

/-- `SourceInfoNone`. -/
def SourceInfoNone : Int := 0

/-- `SourceInfoShort`. -/
def SourceInfoShort : Int := 1

/-- `SourceInfoLong`. -/
def SourceInfoLong : Int := 2

/-- `GetLevel`. -/
def GetLevel (st : LogState) : LogLevel := st.logLevel

/-- `GetStream`. -/
def GetStream (st : LogState) : StoredStream := st.logStream

/-- `GetTimeFormat`. -/
def GetTimeFormat (st : LogState) : String := st.logTimeFormat

/-- `GetPrintCallerInfo`. -/
def GetPrintCallerInfo (st : LogState) : Bool := st.logPrintCallerInfo

/-- `GetPrintSourceInfo`. -/
def GetPrintSourceInfo (st : LogState) : Int := st.logPrintSourceInfo

/-- `SetLevel`. -/
def SetLevel (level : LogLevel) (st : LogState) : LogState :=
  { st with logLevel := level }

/-- `SetStream`: stores the sink and reselects all fourteen write
primitives; the colour branch is taken only when `colorise` is set AND the
dynamic type assertion `stream.(*os.File)` succeeds (`log.go` lines
180-216). -/
def SetStream (stream : Stream) (colorise : Bool) (st : LogState) : LogState :=
  if colorise && stream.isFile then
    { st with
      logStream := .colorable stream
      logTracef := .colored .white
      logDebugf := .colored .white
      logInfof := .colored .green
      logWarnf := .colored .yellow
      logErrorf := .colored .red
      logFatalf := .colored .blue
      logPanicf := .colored .magenta
      logTraceln := .colored .white
      logDebugln := .colored .white
      logInfoln := .colored .green
      logWarnln := .colored .yellow
      logErrorln := .colored .red
      logFatalln := .colored .blue
      logPanicln := .colored .magenta }
  else
    { st with
      logStream := .raw stream
      logTracef := .plain
      logDebugf := .plain
      logInfof := .plain
      logWarnf := .plain
      logErrorf := .plain
      logFatalf := .plain
      logPanicf := .plain
      logTraceln := .plain
      logDebugln := .plain
      logInfoln := .plain
      logWarnln := .plain
      logErrorln := .plain
      logFatalln := .plain
      logPanicln := .plain }

/-- `IsTrace`: `GetLevel() <= TraceLevel`. -/
def IsTrace (st : LogState) : Bool :=
  decide ((GetLevel st).ordinal ≤ LogLevel.TraceLevel.ordinal)

/-- `IsDebug`: `GetLevel() <= DebugLevel`. -/
def IsDebug (st : LogState) : Bool :=
  decide ((GetLevel st).ordinal ≤ LogLevel.DebugLevel.ordinal)

/-- `IsInfo`: `GetLevel() <= InfoLevel`. -/
def IsInfo (st : LogState) : Bool :=
  decide ((GetLevel st).ordinal ≤ LogLevel.InfoLevel.ordinal)

/-- `IsWarning`: `GetLevel() <= WarnLevel`. -/
def IsWarning (st : LogState) : Bool :=
  decide ((GetLevel st).ordinal ≤ LogLevel.WarnLevel.ordinal)

/-- `IsError`: `GetLevel() <= ErrorLevel`. -/
def IsError (st : LogState) : Bool :=
  decide ((GetLevel st).ordinal ≤ LogLevel.ErrorLevel.ordinal)

/-- `IsFatal`: `GetLevel() <= FatalLevel`. -/
def IsFatal (st : LogState) : Bool :=
  decide ((GetLevel st).ordinal ≤ LogLevel.FatalLevel.ordinal)

/-- `IsPanic`: `GetLevel() <= PanicLevel`. -/
def IsPanic (st : LogState) : Bool :=
  decide ((GetLevel st).ordinal ≤ LogLevel.PanicLevel.ordinal)

/-- `IsDisabled`: `GetLevel() <= NoneLevel`. -/
def IsDisabled (st : LogState) : Bool :=
  decide ((GetLevel st).ordinal ≤ LogLevel.NoneLevel.ordinal)

/-- The outcome of `runtime.Caller(2)` (plus `runtime.FuncForPC`): either
the lookup failed (`ok == false`), or it yielded a function name (`none`
when `FuncForPC` returned nil), a file path and a line number. -/
inductive CallerResult
  | fail
  | ok (funcName : Option String) (file : String) (line : Int)
deriving DecidableEq, Repr

/-- `strings.HasPrefix` on the underlying characters. -/
def goStartsWith (s pre : String) : Bool := List.isPrefixOf pre.data s.data

/-- `strings.HasSuffix` on the underlying characters. -/
def goHasSuffix (s suf : String) : Bool :=
  List.isPrefixOf suf.data.reverse s.data.reverse

/-- `strings.TrimSuffix`: removes one occurrence of the suffix, if present. -/
def goTrimSuffix (s suf : String) : String :=
  if goHasSuffix s suf then String.mk (s.data.take (s.data.length - suf.data.length))
  else s

/-- `s[strings.LastIndex(s, "/")+1:]`: the part of `s` after the last slash
(all of `s` when it has none). -/
def afterLastSlash (s : String) : String :=
  String.mk ((s.data.reverse.takeWhile (fun c => !(c = '/'))).reverse)

/-- `prepareFormatAndArgs` (`log.go` lines 529-573): builds the composed
format template and argument list for the `f`-suffixed entry points. -/
def prepareFormatAndArgs (level : LogLevel) (ts : String) (st : LogState)
    (caller : CallerResult) (format : String) (args : List String) :
    String × List String :=
  let leadFormat := "%s %s - "
  let leadArgs := [levelTag level, ts]
  if GetPrintCallerInfo st || decide (0 < GetPrintSourceInfo st) then
    match caller with
    | .fail => (leadFormat ++ format, leadArgs ++ args)
    | .ok funcName file line =>
      let leadFormat2 :=
        if GetPrintCallerInfo st then leadFormat ++ "%s: " else leadFormat
      let leadArgs2 :=
        if GetPrintCallerInfo st then
          leadArgs ++ [afterLastSlash (funcName.getD "<unknown>")]
        else leadArgs
      if GetPrintSourceInfo st = SourceInfoShort ∨
          GetPrintSourceInfo st = SourceInfoLong then
        let file2 :=
          if GetPrintSourceInfo st = SourceInfoShort then afterLastSlash file
          else file
        let format2 := goTrimSuffix format "\n"
        (leadFormat2 ++ format2 ++ " (%s:%d)",
         leadArgs2 ++ args ++ [file2, toString line])
      else
        (leadFormat2 ++ format, leadArgs2 ++ args)
  else
    (leadFormat ++ format, leadArgs ++ args)

/-- `prepareArgs` (`log.go` lines 578-614): builds the composed argument
list for the `ln`-suffixed entry points.  Returns `none` exactly where the
Go code aborts with an index-out-of-range runtime panic: the expression
`args[len(args)-1]` evaluated on an empty `args` slice. -/
def prepareArgs (level : LogLevel) (ts : String) (st : LogState)
    (caller : CallerResult) (args : List String) : Option (List String) :=
  let list := [levelTag level ++ " " ++ ts ++ " -"]
  if GetPrintCallerInfo st || decide (0 < GetPrintSourceInfo st) then
    match caller with
    | .fail => some (list ++ args)
    | .ok funcName file line =>
      let list2 :=
        if GetPrintCallerInfo st then
          list ++ [afterLastSlash (funcName.getD "<unknown>") ++ ":"]
        else list
      if GetPrintSourceInfo st = SourceInfoShort ∨
          GetPrintSourceInfo st = SourceInfoLong then
        let file2 :=
          if GetPrintSourceInfo st = SourceInfoShort then afterLastSlash file
          else file
        match args.getLast? with
        | none => none
        | some lastArg =>
          some (list2 ++ (args.dropLast ++ [goTrimSuffix lastArg "\n"]) ++
            ["(" ++ file2 ++ ":" ++ toString line ++ ")"])
      else some (list2 ++ args)
  else some (list ++ args)

/-- How a call to an emission entry point ends. -/
inductive Outcome
  | ret (n : Int) (err : Option String)
  | exit
  | panicked (msg : String)
  | crash
deriving DecidableEq, Repr

/-- Result of an `ln`-suffixed entry point: what (if anything) was handed to
the line-writing primitive, and how the call ended. -/
structure LnResult where
  written : Option (List String)
  outcome : Outcome
deriving DecidableEq, Repr

/-- Result of an `f`-suffixed entry point: the format/argument pair (if any)
handed to the formatted-writing primitive, and how the call ended. -/
structure FResult where
  written : Option (String × List String)
  outcome : Outcome
deriving DecidableEq, Repr

/-- The terminator-appending step shared by every `f`-suffixed entry point:
append `"\n"` unless the composed format already ends in `"\n"` or `"\r"`. -/
def withNewline (format : String) : String :=
  if !(goHasSuffix format "\n") && !(goHasSuffix format "\r") then format ++ "\n"
  else format

/-- `Traceln` (`log.go` lines 317-323).  Note: the source passes
`DebugLevel`, not `TraceLevel`, to `prepareArgs`. -/
def Traceln (st : LogState) (ts : String) (caller : CallerResult)
    (sinkLn : List String → Int × Option String) (args : List String) : LnResult :=
  if IsTrace st then
    match prepareArgs LogLevel.DebugLevel ts st caller args with
    | none => ⟨none, .crash⟩
    | some a => ⟨some a, .ret (sinkLn a).1 (sinkLn a).2⟩
  else ⟨none, .ret 0 none⟩

/-- `Debugln` (`log.go` lines 327-333). -/
def Debugln (st : LogState) (ts : String) (caller : CallerResult)
    (sinkLn : List String → Int × Option String) (args : List String) : LnResult :=
  if IsDebug st then
    match prepareArgs LogLevel.DebugLevel ts st caller args with
    | none => ⟨none, .crash⟩
    | some a => ⟨some a, .ret (sinkLn a).1 (sinkLn a).2⟩
  else ⟨none, .ret 0 none⟩

/-- `Infoln` (`log.go` lines 337-343). -/
def Infoln (st : LogState) (ts : String) (caller : CallerResult)
    (sinkLn : List String → Int × Option String) (args : List String) : LnResult :=
  if IsInfo st then
    match prepareArgs LogLevel.InfoLevel ts st caller args with
    | none => ⟨none, .crash⟩
    | some a => ⟨some a, .ret (sinkLn a).1 (sinkLn a).2⟩
  else ⟨none, .ret 0 none⟩

/-- `Warnln` (`log.go` lines 347-353). -/
def Warnln (st : LogState) (ts : String) (caller : CallerResult)
    (sinkLn : List String → Int × Option String) (args : List String) : LnResult :=
  if IsWarning st then
    match prepareArgs LogLevel.WarnLevel ts st caller args with
    | none => ⟨none, .crash⟩
    | some a => ⟨some a, .ret (sinkLn a).1 (sinkLn a).2⟩
  else ⟨none, .ret 0 none⟩

/-- `Errorln` (`log.go` lines 357-363). -/
def Errorln (st : LogState) (ts : String) (caller : CallerResult)
    (sinkLn : List String → Int × Option String) (args : List String) : LnResult :=
  if IsError st then
    match prepareArgs LogLevel.ErrorLevel ts st caller args with
    | none => ⟨none, .crash⟩
    | some a => ⟨some a, .ret (sinkLn a).1 (sinkLn a).2⟩
  else ⟨none, .ret 0 none⟩

/-- `Fatalln` (`log.go` lines 367-373): performs the write but discards its
result and returns `(0, nil)`; it does NOT terminate the process. -/
def Fatalln (st : LogState) (ts : String) (caller : CallerResult)
    (sinkLn : List String → Int × Option String) (args : List String) : LnResult :=
  if IsFatal st then
    match prepareArgs LogLevel.FatalLevel ts st caller args with
    | none => ⟨none, .crash⟩
    | some a => ⟨some a, .ret 0 none⟩
  else ⟨none, .ret 0 none⟩

/-- `Panicln` (`log.go` lines 377-383): writes when the gate passes, then
unconditionally executes `panic("unrecoverable error")` — also when the
gate blocked the write. -/
def Panicln (st : LogState) (ts : String) (caller : CallerResult)
    (sinkLn : List String → Int × Option String) (args : List String) : LnResult :=
  if IsPanic st then
    match prepareArgs LogLevel.PanicLevel ts st caller args with
    | none => ⟨none, .crash⟩
    | some a => ⟨some a, .panicked "unrecoverable error"⟩
  else ⟨none, .panicked "unrecoverable error"⟩

/-- `Tracef` (`log.go` lines 386-395). -/
def Tracef (st : LogState) (ts : String) (caller : CallerResult)
    (sinkF : String → List String → Int × Option String)
    (format : String) (args : List String) : FResult :=
  if IsTrace st then
    let fa := prepareFormatAndArgs LogLevel.TraceLevel ts st caller format args
    let f2 := withNewline fa.1
    ⟨some (f2, fa.2), .ret (sinkF f2 fa.2).1 (sinkF f2 fa.2).2⟩
  else ⟨none, .ret 0 none⟩

/-- `Debugf` (`log.go` lines 398-407). -/
def Debugf (st : LogState) (ts : String) (caller : CallerResult)
    (sinkF : String → List String → Int × Option String)
    (format : String) (args : List String) : FResult :=
  if IsDebug st then
    let fa := prepareFormatAndArgs LogLevel.DebugLevel ts st caller format args
    let f2 := withNewline fa.1
    ⟨some (f2, fa.2), .ret (sinkF f2 fa.2).1 (sinkF f2 fa.2).2⟩
  else ⟨none, .ret 0 none⟩

/-- `Infof` (`log.go` lines 411-420). -/
def Infof (st : LogState) (ts : String) (caller : CallerResult)
    (sinkF : String → List String → Int × Option String)
    (format : String) (args : List String) : FResult :=
  if IsInfo st then
    let fa := prepareFormatAndArgs LogLevel.InfoLevel ts st caller format args
    let f2 := withNewline fa.1
    ⟨some (f2, fa.2), .ret (sinkF f2 fa.2).1 (sinkF f2 fa.2).2⟩
  else ⟨none, .ret 0 none⟩

/-- `Warnf` (`log.go` lines 423-432). -/
def Warnf (st : LogState) (ts : String) (caller : CallerResult)
    (sinkF : String → List String → Int × Option String)
    (format : String) (args : List String) : FResult :=
  if IsWarning st then
    let fa := prepareFormatAndArgs LogLevel.WarnLevel ts st caller format args
    let f2 := withNewline fa.1
    ⟨some (f2, fa.2), .ret (sinkF f2 fa.2).1 (sinkF f2 fa.2).2⟩
  else ⟨none, .ret 0 none⟩

/-- `Errorf` (`log.go` lines 436-445). -/
def Errorf (st : LogState) (ts : String) (caller : CallerResult)
    (sinkF : String → List String → Int × Option String)
    (format : String) (args : List String) : FResult :=
  if IsError st then
    let fa := prepareFormatAndArgs LogLevel.ErrorLevel ts st caller format args
    let f2 := withNewline fa.1
    ⟨some (f2, fa.2), .ret (sinkF f2 fa.2).1 (sinkF f2 fa.2).2⟩
  else ⟨none, .ret 0 none⟩

/-- `Fatalf` (`log.go` lines 449-458): performs the write but discards its
result and returns `(0, nil)`; it does NOT terminate the process. -/
def Fatalf (st : LogState) (ts : String) (caller : CallerResult)
    (sinkF : String → List String → Int × Option String)
    (format : String) (args : List String) : FResult :=
  if IsFatal st then
    let fa := prepareFormatAndArgs LogLevel.FatalLevel ts st caller format args
    let f2 := withNewline fa.1
    ⟨some (f2, fa.2), .ret 0 none⟩
  else ⟨none, .ret 0 none⟩

/-- `Panicf` (`log.go` lines 462-471): writes when the gate passes, then
unconditionally executes `panic("unrecoverable error")`. -/
def Panicf (st : LogState) (ts : String) (caller : CallerResult)
    (sinkF : String → List String → Int × Option String)
    (format : String) (args : List String) : FResult :=
  if IsPanic st then
    let fa := prepareFormatAndArgs LogLevel.PanicLevel ts st caller format args
    let f2 := withNewline fa.1
    ⟨some (f2, fa.2), .panicked "unrecoverable error"⟩
  else ⟨none, .panicked "unrecoverable error"⟩

/-- A Go `interface{}` argument as the router sees it: either a string (the
type switch `args[0].(string)` succeeds) or some other value; both carry
their `%v` rendering. -/
inductive GoVal
  | str (s : String)
  | other (rendering : String)
deriving DecidableEq, Repr

/-- The `%v` rendering of a `GoVal`. -/
def GoVal.render : GoVal → String
  | .str s => s
  | .other r => r

/-- `Println` (`log.go` lines 477-499): if the first argument is a string
with a recognised severity-tag prefix, delegates to the matching typed
entry point with `args[1:]` — the whole first argument, tag and remainder,
is dropped; otherwise `fmt.Fprintln` on the stream, verbatim. -/
def Println (st : LogState) (ts : String) (caller : CallerResult)
    (sinkLn : List String → Int × Option String) (args : List GoVal) : LnResult :=
  match args with
  | .str value :: rest =>
    let rest2 := rest.map GoVal.render
    if goStartsWith value "[T]" then Traceln st ts caller sinkLn rest2
    else if goStartsWith value "[D]" then Debugln st ts caller sinkLn rest2
    else if goStartsWith value "[I]" then Infoln st ts caller sinkLn rest2
    else if goStartsWith value "[W]" then Warnln st ts caller sinkLn rest2
    else if goStartsWith value "[E]" then Errorln st ts caller sinkLn rest2
    else if goStartsWith value "[F]" then Fatalln st ts caller sinkLn rest2
    else if goStartsWith value "[P]" then Panicln st ts caller sinkLn rest2
    else
      let a := args.map GoVal.render
      ⟨some a, .ret (sinkLn a).1 (sinkLn a).2⟩
  | _ =>
    let a := args.map GoVal.render
    ⟨some a, .ret (sinkLn a).1 (sinkLn a).2⟩

/-- One of the seven tag letters of the routing pattern. -/
def tagLetter (c : Char) : Bool :=
  c = 'T' || c = 'D' || c = 'I' || c = 'W' || c = 'E' || c = 'F' || c = 'P'

/-- A character of the RE2 class `\s` (tab, newline, form feed, carriage
return, space). -/
def goSpaceChar (c : Char) : Bool :=
  c = '\t' || c = '\n' || c = '\x0c' || c = '\r' || c = ' '

/-- The effect of `regexp.MustCompile(`+"`^\\[(T|D|I|W|E|F|P)\\]\\s`"+`).
ReplaceAllString(format, "")`: drop a leading severity tag together with one
whitespace character, when the string starts that way. -/
def reStripTag (format : String) : String :=
  match format.data with
  | '[' :: c :: ']' :: w :: rest =>
    if tagLetter c && goSpaceChar w then String.mk rest else format
  | _ => format

/-- `Printf` (`log.go` lines 505-524): on a recognised severity-tag prefix,
delegates to the matching `f`-suffixed entry point with the tag (and one
whitespace character, when present) stripped; otherwise `fmt.Fprintf` on
the stream, verbatim. -/
def Printf (st : LogState) (ts : String) (caller : CallerResult)
    (sinkF : String → List String → Int × Option String)
    (format : String) (args : List String) : FResult :=
  if goStartsWith format "[T]" then Tracef st ts caller sinkF (reStripTag format) args
  else if goStartsWith format "[D]" then Debugf st ts caller sinkF (reStripTag format) args
  else if goStartsWith format "[I]" then Infof st ts caller sinkF (reStripTag format) args
  else if goStartsWith format "[W]" then Warnf st ts caller sinkF (reStripTag format) args
  else if goStartsWith format "[E]" then Errorf st ts caller sinkF (reStripTag format) args
  else if goStartsWith format "[F]" then Fatalf st ts caller sinkF (reStripTag format) args
  else if goStartsWith format "[P]" then Panicf st ts caller sinkF (reStripTag format) args
  else ⟨some (format, args), .ret (sinkF format args).1 (sinkF format args).2⟩

/-- Line-terminator characters (`"\n"` and `"\r"`, the two suffixes the
`f`-suffixed entry points test for). -/
def isTermChar (c : Char) : Bool := c = '\n' || c = '\r'

/-- Length of the leading run of terminator characters of a character list. -/
def runLen (l : List Char) : Nat := (l.takeWhile isTermChar).length

/-- Number of trailing terminator characters of a string. -/
def termRun (s : String) : Nat := runLen s.data.reverse

/-- A configuration state with the given level, source-info mode and
caller-info flag, a plain (non-colourised) file sink and plain write
primitives. -/
def mkState (level : LogLevel) (srcInfo : Int) (callerInfo : Bool) : LogState :=
  ⟨level, .raw ⟨0, true⟩, "2006-01-02@15:04:05.000", srcInfo, callerInfo,
   .plain, .plain, .plain, .plain, .plain, .plain, .plain,
   .plain, .plain, .plain, .plain, .plain, .plain, .plain⟩

/-- A line sink whose write reports one byte written and no error. -/
def sink1 : List String → Int × Option String := fun _ => (1, none)

/-- A formatted sink whose write reports one byte written and no error. -/
def sinkF1 : String → List String → Int × Option String := fun _ _ => (1, none)

/-- A line sink whose write reports five bytes written and no error. -/
def sink5 : List String → Int × Option String := fun _ => (5, none)

end GoLog

namespace GoLog

theorem runLen_cons_true {c : Char} (l : List Char) (h : isTermChar c = true) :
    runLen (c :: l) = runLen l + 1 := by
  simp [runLen, List.takeWhile_cons, h]

theorem runLen_cons_false {c : Char} (l : List Char) (h : isTermChar c = false) :
    runLen (c :: l) = 0 := by
  simp [runLen, List.takeWhile_cons, h]

theorem runLen_append_false (u v : List Char) {c : Char} (hc : isTermChar c = false) :
    runLen (u ++ c :: v) = runLen u := by
  induction u with
  | nil => rw [List.nil_append, runLen_cons_false _ hc]; rfl
  | cons a t ih =>
    by_cases ha : isTermChar a = true
    · rw [List.cons_append, runLen_cons_true _ ha, ih, runLen_cons_true _ ha]
    · have ha' : isTermChar a = false := by simpa using ha
      rw [List.cons_append, runLen_cons_false _ ha', runLen_cons_false _ ha']

theorem dataRev_append (s t : String) :
    (s ++ t).data.reverse = t.data.reverse ++ s.data.reverse := by
  rw [String.data_append, List.reverse_append]

theorem termRun_append_left0 (x y : String) {c : Char} {v : List Char}
    (hy : y.data.reverse = c :: v) (hc : isTermChar c = false) :
    termRun (x ++ y) = 0 := by
  unfold termRun
  rw [dataRev_append, hy, List.cons_append, runLen_cons_false _ hc]

theorem termRun_append_right (x y : String) {c : Char} {v : List Char}
    (hx : x.data.reverse = c :: v) (hc : isTermChar c = false) :
    termRun (x ++ y) = termRun y := by
  unfold termRun
  rw [dataRev_append, hx, runLen_append_false _ _ hc]

theorem termRun_append_newline (s : String) : termRun (s ++ "\n") = termRun s + 1 := by
  unfold termRun
  rw [dataRev_append]
  have h1 : ("\n" : String).data.reverse = ['\n'] := by decide
  rw [h1, List.cons_append, runLen_cons_true _ (by decide), List.nil_append]

theorem withNewline_of_termRun_zero (s : String) (h : termRun s = 0) :
    withNewline s = s ++ "\n" := by
  unfold withNewline
  suffices hs : goHasSuffix s "\n" = false ∧ goHasSuffix s "\r" = false by
    rw [hs.1, hs.2]
    simp
  cases hrev : s.data.reverse with
  | nil =>
    constructor <;> (unfold goHasSuffix; rw [hrev]; decide)
  | cons c r =>
    have hc : isTermChar c = false := by
      by_contra hc'
      have hc'' : isTermChar c = true := by simpa using hc'
      rw [termRun, hrev, runLen_cons_true _ hc''] at h
      omega
    have hcn : ¬c = '\n' ∧ ¬c = '\r' := by simpa [isTermChar] using hc
    have hb1 : ('\n' == c) = false := by
      simpa using fun hcc => hcn.1 hcc.symm
    have hb2 : ('\r' == c) = false := by
      simpa using fun hcc => hcn.2 hcc.symm
    have e1 : ("\n" : String).data.reverse = ['\n'] := by decide
    have e2 : ("\r" : String).data.reverse = ['\r'] := by decide
    constructor
    · unfold goHasSuffix
      rw [hrev, e1]
      simp [List.isPrefixOf, hb1]
    · unfold goHasSuffix
      rw [hrev, e2]
      simp [List.isPrefixOf, hb2]

theorem withNewline_of_termRun_one (s : String) (h : termRun s = 1) :
    withNewline s = s := by
  unfold withNewline
  cases hrev : s.data.reverse with
  | nil =>
    rw [termRun, hrev] at h
    simp [runLen] at h
  | cons c r =>
    have hc : isTermChar c = true := by
      by_contra hc'
      have hc'' : isTermChar c = false := by simpa using hc'
      rw [termRun, hrev, runLen_cons_false _ hc''] at h
      omega
    have e1 : ("\n" : String).data.reverse = ['\n'] := by decide
    have e2 : ("\r" : String).data.reverse = ['\r'] := by decide
    rcases (by simpa [isTermChar] using hc : c = '\n' ∨ c = '\r') with hcc | hcc
    · have : goHasSuffix s "\n" = true := by
        unfold goHasSuffix
        rw [hrev, e1, hcc]
        simp [List.isPrefixOf]
      rw [this]
      simp
    · have : goHasSuffix s "\r" = true := by
        unfold goHasSuffix
        rw [hrev, e2, hcc]
        simp [List.isPrefixOf]
      rw [this]
      simp

theorem termRun_withNewline (s : String) (h : termRun s ≤ 1) :
    termRun (withNewline s) = 1 := by
  rcases Nat.lt_or_ge (termRun s) 1 with h0 | h1
  · have h0' : termRun s = 0 := by omega
    rw [withNewline_of_termRun_zero s h0', termRun_append_newline, h0']
  · have h1' : termRun s = 1 := by omega
    rw [withNewline_of_termRun_one s h1', h1']

theorem prepareArgs_concat_isSome (level : LogLevel) (ts : String) (st : LogState)
    (caller : CallerResult) (init : List String) (la : String) :
    (prepareArgs level ts st caller (init ++ [la])).isSome = true := by
  unfold prepareArgs
  cases caller <;> simp only [List.getLast?_concat] <;> (repeat' split) <;> simp_all

/-- Claim C1, counterexample: with minimum level Warn, source-info Short and a
successfully resolved caller, `Warnln` called with an empty argument list
passes the gate (`ordinal(Warn) ≥ ordinal(Warn)`) yet hands nothing to the
sink — the call aborts on an out-of-range index during composition — so
"writes iff ordinal(S) ≥ ordinal(M)" is false as stated. -/
theorem C1_counterexample :
    IsWarning (mkState .WarnLevel 1 false) = true ∧
    (Warnln (mkState .WarnLevel 1 false) "ts" (.ok none "dir/f.go" 3) sink1 []).written
      = none := by
  exact ⟨rfl, rfl⟩

/-- Claim C1, amended: every emission entry point hands a line to the sink iff
the severity's ordinal is at least the configured minimum's ordinal — for the
`ln`-suffixed entry points provided the argument list is non-empty (an empty
list can abort composition before the write, see C4) — and when the minimum
is `NoneLevel` every gate is closed, so nothing is ever written. -/
theorem C1_gate_amended (st : LogState) (ts : String) (caller : CallerResult)
    (sinkLn : List String → Int × Option String)
    (sinkF : String → List String → Int × Option String)
    (format : String) (args : List String) :
    ((Tracef st ts caller sinkF format args).written.isSome = IsTrace st) ∧
    ((Debugf st ts caller sinkF format args).written.isSome = IsDebug st) ∧
    ((Infof st ts caller sinkF format args).written.isSome = IsInfo st) ∧
    ((Warnf st ts caller sinkF format args).written.isSome = IsWarning st) ∧
    ((Errorf st ts caller sinkF format args).written.isSome = IsError st) ∧
    ((Fatalf st ts caller sinkF format args).written.isSome = IsFatal st) ∧
    ((Panicf st ts caller sinkF format args).written.isSome = IsPanic st) ∧
    (args ≠ [] → (Traceln st ts caller sinkLn args).written.isSome = IsTrace st) ∧
    (args ≠ [] → (Debugln st ts caller sinkLn args).written.isSome = IsDebug st) ∧
    (args ≠ [] → (Infoln st ts caller sinkLn args).written.isSome = IsInfo st) ∧
    (args ≠ [] → (Warnln st ts caller sinkLn args).written.isSome = IsWarning st) ∧
    (args ≠ [] → (Errorln st ts caller sinkLn args).written.isSome = IsError st) ∧
    (args ≠ [] → (Fatalln st ts caller sinkLn args).written.isSome = IsFatal st) ∧
    (args ≠ [] → (Panicln st ts caller sinkLn args).written.isSome = IsPanic st) ∧
    (GetLevel st = LogLevel.NoneLevel →
      IsTrace st = false ∧ IsDebug st = false ∧ IsInfo st = false ∧
      IsWarning st = false ∧ IsError st = false ∧ IsFatal st = false ∧
      IsPanic st = false) := by
  have hln : ∀ (level : LogLevel), args ≠ [] →
      ∃ L, prepareArgs level ts st caller args = some L := by
    intro level h
    rcases List.eq_nil_or_concat args with rfl | ⟨init, la, rfl⟩
    · exact absurd rfl h
    · rw [List.concat_eq_append]
      exact Option.isSome_iff_exists.mp (prepareArgs_concat_isSome level ts st caller init la)
  refine ⟨?_, ?_, ?_, ?_, ?_, ?_, ?_, ?_, ?_, ?_, ?_, ?_, ?_, ?_, ?_⟩
  · cases hg : IsTrace st <;> simp [Tracef, hg]
  · cases hg : IsDebug st <;> simp [Debugf, hg]
  · cases hg : IsInfo st <;> simp [Infof, hg]
  · cases hg : IsWarning st <;> simp [Warnf, hg]
  · cases hg : IsError st <;> simp [Errorf, hg]
  · cases hg : IsFatal st <;> simp [Fatalf, hg]
  · cases hg : IsPanic st <;> simp [Panicf, hg]
  · intro h
    obtain ⟨L, hL⟩ := hln LogLevel.DebugLevel h
    cases hg : IsTrace st <;> simp [Traceln, hg, hL]
  · intro h
    obtain ⟨L, hL⟩ := hln LogLevel.DebugLevel h
    cases hg : IsDebug st <;> simp [Debugln, hg, hL]
  · intro h
    obtain ⟨L, hL⟩ := hln LogLevel.InfoLevel h
    cases hg : IsInfo st <;> simp [Infoln, hg, hL]
  · intro h
    obtain ⟨L, hL⟩ := hln LogLevel.WarnLevel h
    cases hg : IsWarning st <;> simp [Warnln, hg, hL]
  · intro h
    obtain ⟨L, hL⟩ := hln LogLevel.ErrorLevel h
    cases hg : IsError st <;> simp [Errorln, hg, hL]
  · intro h
    obtain ⟨L, hL⟩ := hln LogLevel.FatalLevel h
    cases hg : IsFatal st <;> simp [Fatalln, hg, hL]
  · intro h
    obtain ⟨L, hL⟩ := hln LogLevel.PanicLevel h
    cases hg : IsPanic st <;> simp [Panicln, hg, hL]
  · intro hN
    unfold GetLevel at hN
    unfold IsTrace IsDebug IsInfo IsWarning IsError IsFatal IsPanic GetLevel
    rw [hN]
    decide

/-- Claim C1, witness: the amended gate law evaluated at a concrete state
(minimum Info) with one argument: `Debugln` does not write, `Warnln` does. -/
theorem C1_gate_witness :
    (Debugln (mkState .InfoLevel 0 false) "ts" CallerResult.fail sink1 ["x"]).written.isSome
        = IsDebug (mkState .InfoLevel 0 false) ∧
    (Warnln (mkState .InfoLevel 0 false) "ts" CallerResult.fail sink1 ["x"]).written.isSome
        = IsWarning (mkState .InfoLevel 0 false) := by
  have h := C1_gate_amended (mkState .InfoLevel 0 false) "ts" CallerResult.fail sink1 sinkF1
    "m" ["x"]
  exact ⟨h.2.2.2.2.2.2.2.2.1 (by simp), h.2.2.2.2.2.2.2.2.2.2.1 (by simp)⟩

/-- Claim C2, counterexample: with the gate open, `Fatalln` writes the line
but then returns normally with `(0, nil)` — it does not terminate the
process (`os.Exit` is never called), refuting "the Fatal entry points
terminate the process after writing the log line". -/
theorem C2_counterexample :
    (Fatalln (mkState .DebugLevel 0 false) "ts" CallerResult.fail sink5 ["x"]).written.isSome
      = true ∧
    (Fatalln (mkState .DebugLevel 0 false) "ts" CallerResult.fail sink5 ["x"]).outcome
      = Outcome.ret 0 none ∧
    Outcome.ret 0 none ≠ Outcome.exit := by
  exact ⟨rfl, rfl, by decide⟩

/-- Claim C2, amended: the Fatal entry points write the line (when the gate
passes) and then return normally with `(0, nil)`, never terminating the
process; the Panic entry points write (when the gate passes) and then always
panic with the fixed message "unrecoverable error", even if the sink write
failed — the sink's result never influences the outcome. -/
theorem C2_termination_amended (st : LogState) (ts : String) (caller : CallerResult)
    (sinkLn : List String → Int × Option String)
    (sinkF : String → List String → Int × Option String)
    (format : String) (args : List String) :
    ((Fatalf st ts caller sinkF format args).outcome = Outcome.ret 0 none) ∧
    ((Panicf st ts caller sinkF format args).outcome
      = Outcome.panicked "unrecoverable error") ∧
    (args ≠ [] → (Fatalln st ts caller sinkLn args).outcome = Outcome.ret 0 none) ∧
    (args ≠ [] → (Panicln st ts caller sinkLn args).outcome
      = Outcome.panicked "unrecoverable error") ∧
    (IsFatal st = true → (Fatalf st ts caller sinkF format args).written.isSome = true) ∧
    (IsPanic st = true → (Panicf st ts caller sinkF format args).written.isSome = true) ∧
    (IsFatal st = true → args ≠ [] →
      (Fatalln st ts caller sinkLn args).written.isSome = true) ∧
    (IsPanic st = true → args ≠ [] →
      (Panicln st ts caller sinkLn args).written.isSome = true) := by
  have hln : ∀ (level : LogLevel), args ≠ [] →
      ∃ L, prepareArgs level ts st caller args = some L := by
    intro level h
    rcases List.eq_nil_or_concat args with rfl | ⟨init, la, rfl⟩
    · exact absurd rfl h
    · rw [List.concat_eq_append]
      exact Option.isSome_iff_exists.mp (prepareArgs_concat_isSome level ts st caller init la)
  refine ⟨?_, ?_, ?_, ?_, ?_, ?_, ?_, ?_⟩
  · cases hg : IsFatal st <;> simp [Fatalf, hg]
  · cases hg : IsPanic st <;> simp [Panicf, hg]
  · intro h
    obtain ⟨L, hL⟩ := hln LogLevel.FatalLevel h
    cases hg : IsFatal st <;> simp [Fatalln, hg, hL]
  · intro h
    obtain ⟨L, hL⟩ := hln LogLevel.PanicLevel h
    cases hg : IsPanic st <;> simp [Panicln, hg, hL]
  · intro hg
    simp [Fatalf, hg]
  · intro hg
    simp [Panicf, hg]
  · intro hg h
    obtain ⟨L, hL⟩ := hln LogLevel.FatalLevel h
    simp [Fatalln, hg, hL]
  · intro hg h
    obtain ⟨L, hL⟩ := hln LogLevel.PanicLevel h
    simp [Panicln, hg, hL]

/-- Claim C2, witness: the amended termination behaviour at a concrete open
gate: `Fatalf` returns `(0, nil)` and `Panicf` panics with the fixed message. -/
theorem C2_termination_witness :
    (Fatalf (mkState .DebugLevel 0 false) "ts" CallerResult.fail sinkF1 "m" []).outcome
        = Outcome.ret 0 none ∧
    (Panicln (mkState .DebugLevel 0 false) "ts" CallerResult.fail sink1 ["x"]).outcome
        = Outcome.panicked "unrecoverable error" := by
  have h := C2_termination_amended (mkState .DebugLevel 0 false) "ts" CallerResult.fail
    sink1 sinkF1 "m" ["x"]
  exact ⟨h.1, h.2.2.2.1 (by simp)⟩

/-- Claim C3, counterexample: with the minimum level `NoneLevel`, `Panicln`
is below the gate, yet it does not "return a zero byte count and a nil
error" — it never returns at all: it still panics with "unrecoverable
error", refuting the no-side-effect claim for the Panic entry points. -/
theorem C3_counterexample :
    IsPanic (mkState .NoneLevel 0 false) = false ∧
    (Panicln (mkState .NoneLevel 0 false) "ts" CallerResult.fail sink1 ["x"]).outcome
      = Outcome.panicked "unrecoverable error" ∧
    Outcome.panicked "unrecoverable error" ≠ Outcome.ret 0 none := by
  exact ⟨rfl, rfl, by decide⟩

/-- Claim C3, amended: for the Trace through Error and Fatal entry points
(both call shapes), a call below the configured minimum returns `(0, nil)`,
hands nothing to the sink, and performs no stack introspection (the result
does not depend on the caller-resolution oracle at all); the Panic entry
points below the minimum likewise write nothing and inspect no stack, but
they panic with "unrecoverable error" instead of returning. -/
theorem C3_gated_off_amended (st : LogState) (ts : String) (c1 c2 : CallerResult)
    (sinkLn : List String → Int × Option String)
    (sinkF : String → List String → Int × Option String)
    (format : String) (args : List String) :
    (IsTrace st = false → Traceln st ts c1 sinkLn args = ⟨none, Outcome.ret 0 none⟩ ∧
      Traceln st ts c1 sinkLn args = Traceln st ts c2 sinkLn args) ∧
    (IsDebug st = false → Debugln st ts c1 sinkLn args = ⟨none, Outcome.ret 0 none⟩ ∧
      Debugln st ts c1 sinkLn args = Debugln st ts c2 sinkLn args) ∧
    (IsInfo st = false → Infoln st ts c1 sinkLn args = ⟨none, Outcome.ret 0 none⟩ ∧
      Infoln st ts c1 sinkLn args = Infoln st ts c2 sinkLn args) ∧
    (IsWarning st = false → Warnln st ts c1 sinkLn args = ⟨none, Outcome.ret 0 none⟩ ∧
      Warnln st ts c1 sinkLn args = Warnln st ts c2 sinkLn args) ∧
    (IsError st = false → Errorln st ts c1 sinkLn args = ⟨none, Outcome.ret 0 none⟩ ∧
      Errorln st ts c1 sinkLn args = Errorln st ts c2 sinkLn args) ∧
    (IsFatal st = false → Fatalln st ts c1 sinkLn args = ⟨none, Outcome.ret 0 none⟩ ∧
      Fatalln st ts c1 sinkLn args = Fatalln st ts c2 sinkLn args) ∧
    (IsPanic st = false →
      Panicln st ts c1 sinkLn args = ⟨none, Outcome.panicked "unrecoverable error"⟩ ∧
      Panicln st ts c1 sinkLn args = Panicln st ts c2 sinkLn args) ∧
    (IsTrace st = false → Tracef st ts c1 sinkF format args = ⟨none, Outcome.ret 0 none⟩ ∧
      Tracef st ts c1 sinkF format args = Tracef st ts c2 sinkF format args) ∧
    (IsDebug st = false → Debugf st ts c1 sinkF format args = ⟨none, Outcome.ret 0 none⟩ ∧
      Debugf st ts c1 sinkF format args = Debugf st ts c2 sinkF format args) ∧
    (IsInfo st = false → Infof st ts c1 sinkF format args = ⟨none, Outcome.ret 0 none⟩ ∧
      Infof st ts c1 sinkF format args = Infof st ts c2 sinkF format args) ∧
    (IsWarning st = false → Warnf st ts c1 sinkF format args = ⟨none, Outcome.ret 0 none⟩ ∧
      Warnf st ts c1 sinkF format args = Warnf st ts c2 sinkF format args) ∧
    (IsError st = false → Errorf st ts c1 sinkF format args = ⟨none, Outcome.ret 0 none⟩ ∧
      Errorf st ts c1 sinkF format args = Errorf st ts c2 sinkF format args) ∧
    (IsFatal st = false → Fatalf st ts c1 sinkF format args = ⟨none, Outcome.ret 0 none⟩ ∧
      Fatalf st ts c1 sinkF format args = Fatalf st ts c2 sinkF format args) ∧
    (IsPanic st = false →
      Panicf st ts c1 sinkF format args = ⟨none, Outcome.panicked "unrecoverable error"⟩ ∧
      Panicf st ts c1 sinkF format args = Panicf st ts c2 sinkF format args) := by
  refine ⟨?_, ?_, ?_, ?_, ?_, ?_, ?_, ?_, ?_, ?_, ?_, ?_, ?_, ?_⟩ <;> intro h
  · exact ⟨by simp [Traceln, h], by simp [Traceln, h]⟩
  · exact ⟨by simp [Debugln, h], by simp [Debugln, h]⟩
  · exact ⟨by simp [Infoln, h], by simp [Infoln, h]⟩
  · exact ⟨by simp [Warnln, h], by simp [Warnln, h]⟩
  · exact ⟨by simp [Errorln, h], by simp [Errorln, h]⟩
  · exact ⟨by simp [Fatalln, h], by simp [Fatalln, h]⟩
  · exact ⟨by simp [Panicln, h], by simp [Panicln, h]⟩
  · exact ⟨by simp [Tracef, h], by simp [Tracef, h]⟩
  · exact ⟨by simp [Debugf, h], by simp [Debugf, h]⟩
  · exact ⟨by simp [Infof, h], by simp [Infof, h]⟩
  · exact ⟨by simp [Warnf, h], by simp [Warnf, h]⟩
  · exact ⟨by simp [Errorf, h], by simp [Errorf, h]⟩
  · exact ⟨by simp [Fatalf, h], by simp [Fatalf, h]⟩
  · exact ⟨by simp [Panicf, h], by simp [Panicf, h]⟩

/-- Claim C3, witness: the amended gated-off behaviour at minimum `NoneLevel`:
`Errorln` returns `(0, nil)` having written nothing, independent of the
caller-resolution oracle. -/
theorem C3_gated_off_witness :
    Errorln (mkState .NoneLevel 0 false) "ts" CallerResult.fail sink1 ["x"]
        = ⟨none, Outcome.ret 0 none⟩ ∧
    Errorln (mkState .NoneLevel 0 false) "ts" CallerResult.fail sink1 ["x"]
        = Errorln (mkState .NoneLevel 0 false) "ts" (.ok none "f.go" 1) sink1 ["x"] := by
  exact (C3_gated_off_amended (mkState .NoneLevel 0 false) "ts" CallerResult.fail
    (.ok none "f.go" 1) sink1 sinkF1 "m" ["x"]).2.2.2.2.1 rfl

theorem composed_format_termRun (level : LogLevel) (ts : String) (st : LogState)
    (caller : CallerResult) (format : String) (args : List String)
    (h : termRun format ≤ 1 ∨
      ((GetPrintSourceInfo st = SourceInfoShort ∨ GetPrintSourceInfo st = SourceInfoLong) ∧
        caller ≠ CallerResult.fail)) :
    termRun (withNewline (prepareFormatAndArgs level ts st caller format args).1) = 1 := by
  have hlead0 : ("%s %s - " : String).data.reverse
      = ' ' :: ['-', ' ', 's', '%', ' ', 's', '%'] := by decide
  have hlead1 : ("%s %s - " ++ "%s: " : String).data.reverse
      = ' ' :: [':', 's', '%', ' ', '-', ' ', 's', '%', ' ', 's', '%'] := by decide
  have htail : (" (%s:%d)" : String).data.reverse
      = ')' :: ['d', '%', ':', 's', '%', '(', ' '] := by decide
  unfold prepareFormatAndArgs
  by_cases hg : (GetPrintCallerInfo st || decide (0 < GetPrintSourceInfo st)) = true
  · rw [if_pos hg]
    cases caller with
    | fail =>
      have hterm : termRun format ≤ 1 := by
        rcases h with h | ⟨_, hne⟩
        · exact h
        · exact absurd rfl hne
      exact termRun_withNewline _
        (by rw [termRun_append_right _ _ hlead0 (by decide)]; exact hterm)
    | ok fn file line =>
      by_cases hsrc : (GetPrintSourceInfo st = SourceInfoShort ∨
          GetPrintSourceInfo st = SourceInfoLong)
      · by_cases hci : GetPrintCallerInfo st = true
        · simp only [hci, if_true, if_pos hsrc]
          have h0 : termRun ((("%s %s - " ++ "%s: ") ++ goTrimSuffix format "\n")
              ++ " (%s:%d)") = 0 := termRun_append_left0 _ _ htail (by decide)
          rw [withNewline_of_termRun_zero _ h0, termRun_append_newline, h0]
        · simp only [hci, Bool.false_eq_true, if_false, if_pos hsrc]
          have h0 : termRun (("%s %s - " ++ goTrimSuffix format "\n")
              ++ " (%s:%d)") = 0 := termRun_append_left0 _ _ htail (by decide)
          rw [withNewline_of_termRun_zero _ h0, termRun_append_newline, h0]
      · have hterm : termRun format ≤ 1 := by
          rcases h with h | ⟨hs, _⟩
          · exact h
          · exact absurd hs hsrc
        by_cases hci : GetPrintCallerInfo st = true
        · simp only [hci, if_true, if_neg hsrc]
          exact termRun_withNewline _
            (by rw [termRun_append_right _ _ hlead1 (by decide)]; exact hterm)
        · simp only [hci, Bool.false_eq_true, if_false, if_neg hsrc]
          exact termRun_withNewline _
            (by rw [termRun_append_right _ _ hlead0 (by decide)]; exact hterm)
  · rw [if_neg hg]
    have hsrc0 : ¬(GetPrintSourceInfo st = SourceInfoShort ∨
        GetPrintSourceInfo st = SourceInfoLong) := by
      intro hs
      apply hg
      rcases hs with hs | hs <;> simp [hs, SourceInfoShort, SourceInfoLong]
    have hterm : termRun format ≤ 1 := by
      rcases h with h | ⟨hs, _⟩
      · exact h
      · exact absurd hs hsrc0
    exact termRun_withNewline _
      (by rw [termRun_append_right _ _ hlead0 (by decide)]; exact hterm)

/-- Claim C5, counterexample: a formatted call whose template already ends in
two terminators, with caller-info and source-info both off, hands the sink a
composed format ending in two terminators — the entry point appends nothing
because a terminator is already present, and nothing strips the extra one —
refuting "ends in exactly one terminator ... for every caller-supplied format
template". -/
theorem C5_counterexample :
    (Debugf (mkState .DebugLevel 0 false) "ts" CallerResult.fail sinkF1 "x\n\n" []).written
      = some ("%s %s - x\n\n", ["[D]", "ts"]) ∧
    termRun "%s %s - x\n\n" = 2 := by
  exact ⟨rfl, by decide⟩

/-- Claim C5, amended: for every formatted call that passes the gate, the
composed format string handed to the sink-writing primitive ends in exactly
one terminator character, provided the caller's template ends with at most
one terminator character, or source-info is Short or Long and caller
resolution succeeds (in which case a single trailing `"\n"` of the template
is relocated before the location suffix); a template ending in two or more
terminators with source-info inactive keeps all of them. -/
theorem C5_one_terminator_amended (st : LogState) (ts : String) (caller : CallerResult)
    (sinkF : String → List String → Int × Option String)
    (format : String) (args : List String)
    (h : termRun format ≤ 1 ∨
      ((GetPrintSourceInfo st = SourceInfoShort ∨ GetPrintSourceInfo st = SourceInfoLong) ∧
        caller ≠ CallerResult.fail))
    (f : String) (a : List String)
    (hw : (Tracef st ts caller sinkF format args).written = some (f, a) ∨
          (Debugf st ts caller sinkF format args).written = some (f, a) ∨
          (Infof st ts caller sinkF format args).written = some (f, a) ∨
          (Warnf st ts caller sinkF format args).written = some (f, a) ∨
          (Errorf st ts caller sinkF format args).written = some (f, a) ∨
          (Fatalf st ts caller sinkF format args).written = some (f, a) ∨
          (Panicf st ts caller sinkF format args).written = some (f, a)) :
    termRun f = 1 := by
  rcases hw with hw | hw | hw | hw | hw | hw | hw
  · unfold Tracef at hw
    cases hg : IsTrace st <;> simp [hg] at hw
    rw [← hw.1]
    exact composed_format_termRun LogLevel.TraceLevel ts st caller format args h
  · unfold Debugf at hw
    cases hg : IsDebug st <;> simp [hg] at hw
    rw [← hw.1]
    exact composed_format_termRun LogLevel.DebugLevel ts st caller format args h
  · unfold Infof at hw
    cases hg : IsInfo st <;> simp [hg] at hw
    rw [← hw.1]
    exact composed_format_termRun LogLevel.InfoLevel ts st caller format args h
  · unfold Warnf at hw
    cases hg : IsWarning st <;> simp [hg] at hw
    rw [← hw.1]
    exact composed_format_termRun LogLevel.WarnLevel ts st caller format args h
  · unfold Errorf at hw
    cases hg : IsError st <;> simp [hg] at hw
    rw [← hw.1]
    exact composed_format_termRun LogLevel.ErrorLevel ts st caller format args h
  · unfold Fatalf at hw
    cases hg : IsFatal st <;> simp [hg] at hw
    rw [← hw.1]
    exact composed_format_termRun LogLevel.FatalLevel ts st caller format args h
  · unfold Panicf at hw
    cases hg : IsPanic st <;> simp [hg] at hw
    rw [← hw.1]
    exact composed_format_termRun LogLevel.PanicLevel ts st caller format args h

/-- Claim C5, witness: the amended terminator invariant at a concrete call:
`Debugf` on template `"x"` hands the sink `"%s %s - x\n"`, which ends in
exactly one terminator. -/
theorem C5_one_terminator_witness :
    (Debugf (mkState .DebugLevel 0 false) "ts" CallerResult.fail sinkF1 "x" []).written
      = some ("%s %s - x\n", ["[D]", "ts"]) ∧
    termRun "%s %s - x\n" = 1 := by
  refine ⟨rfl, ?_⟩
  exact C5_one_terminator_amended (mkState .DebugLevel 0 false) "ts" CallerResult.fail
    sinkF1 "x" [] (Or.inl (by decide)) "%s %s - x\n" ["[D]", "ts"] (Or.inr (Or.inl rfl))

theorem getLast_concat_facts (l init : List String) (a b : String) :
    (l ++ (init ++ [a, b])).getLast? = some b ∧
    (l ++ (init ++ [a, b])).dropLast.getLast? = some a := by
  have e : l ++ (init ++ [a, b]) = (l ++ (init ++ [a])) ++ [b] := by simp
  rw [e, List.getLast?_concat, List.dropLast_concat]
  refine ⟨rfl, ?_⟩
  have e2 : l ++ (init ++ [a]) = (l ++ init) ++ [a] := by simp
  rw [e2, List.getLast?_concat]

theorem prepareArgs_source_eq (level : LogLevel) (ts : String) (st : LogState)
    (fn : Option String) (file : String) (line : Int)
    (init : List String) (la : String)
    (h : GetPrintSourceInfo st = SourceInfoShort ∨ GetPrintSourceInfo st = SourceInfoLong) :
    prepareArgs level ts st (.ok fn file line) (init ++ [la]) =
      some ((if GetPrintCallerInfo st = true
          then [levelTag level ++ " " ++ ts ++ " -",
                afterLastSlash (fn.getD "<unknown>") ++ ":"]
          else [levelTag level ++ " " ++ ts ++ " -"]) ++
        (init ++ [goTrimSuffix la "\n",
          "(" ++ (if GetPrintSourceInfo st = SourceInfoShort then afterLastSlash file
            else file) ++ ":" ++ toString line ++ ")"])) := by
  have hg : (GetPrintCallerInfo st || decide (0 < GetPrintSourceInfo st)) = true := by
    rcases h with h | h <;> simp [h, SourceInfoShort, SourceInfoLong]
  unfold prepareArgs
  rw [if_pos hg]
  simp only [List.getLast?_concat]
  rw [if_pos h, List.dropLast_concat]
  cases hci : GetPrintCallerInfo st <;> simp [hci]

/-- Claim C6, counterexample: `TrimSuffix` strips only a single `"\n"`, so a
last argument ending in two terminators keeps one of them: the composed
sequence does end with the `(file:line)` annotation, but a terminator
remains mid-line on the element just before it, refuting "any trailing
terminator on the previously last caller argument is stripped ... so no
terminator remains mid-line". -/
theorem C6_counterexample :
    prepareArgs LogLevel.WarnLevel "ts" (mkState .WarnLevel 1 false)
      (.ok none "dir/f.go" 3) ["a\n\n"] = some ["[W] ts -", "a\n", "(f.go:3)"] ∧
    termRun "a\n" = 1 := by
  exact ⟨rfl, by decide⟩

/-- Claim C6, amended: for every `ln`-suffixed call that passes the gate
with source-info Short or Long, successful caller resolution and at least
one caller argument, the composed argument sequence ends with the
`(file:line)` annotation as its final element — in Short mode the file is its
final path segment, in Long mode the full path — and the element before the
annotation is the previously last caller argument with one trailing `"\n"`
(if present) stripped; an argument ending in several terminators, or in
`"\r"`, keeps the rest mid-line, and with no caller argument the composition
aborts. -/
theorem C6_annotation_amended (level : LogLevel) (ts : String) (st : LogState)
    (fn : Option String) (file : String) (line : Int)
    (init : List String) (la : String)
    (h : GetPrintSourceInfo st = SourceInfoShort ∨ GetPrintSourceInfo st = SourceInfoLong) :
    (prepareArgs level ts st (.ok fn file line) (init ++ [la])).map
        (fun L => (L.getLast?, L.dropLast.getLast?)) =
      some (some ("(" ++ (if GetPrintSourceInfo st = SourceInfoShort
            then afterLastSlash file else file) ++ ":" ++ toString line ++ ")"),
          some (goTrimSuffix la "\n")) := by
  rw [prepareArgs_source_eq level ts st fn file line init la h]
  have hfacts := getLast_concat_facts
    (if GetPrintCallerInfo st = true
      then [levelTag level ++ " " ++ ts ++ " -", afterLastSlash (fn.getD "<unknown>") ++ ":"]
      else [levelTag level ++ " " ++ ts ++ " -"])
    init (goTrimSuffix la "\n")
    ("(" ++ (if GetPrintSourceInfo st = SourceInfoShort then afterLastSlash file
      else file) ++ ":" ++ toString line ++ ")")
  simp only [Option.map_some', hfacts.1, hfacts.2]

/-- Claim C6, witness: the amended annotation law at a concrete call (Short
mode, last argument `"a\n"`): the final element is `(f.go:3)` and the prior
element is `"a"` with its newline stripped. -/
theorem C6_annotation_witness :
    (prepareArgs LogLevel.WarnLevel "ts" (mkState .WarnLevel 1 false)
        (.ok none "dir/f.go" 3) (["hello"] ++ ["a\n"])).map
        (fun L => (L.getLast?, L.dropLast.getLast?)) =
      some (some ("(" ++ (if GetPrintSourceInfo (mkState .WarnLevel 1 false) = SourceInfoShort
            then afterLastSlash "dir/f.go" else "dir/f.go") ++ ":" ++ toString (3 : Int) ++ ")"),
          some (goTrimSuffix "a\n" "\n")) := by
  exact C6_annotation_amended LogLevel.WarnLevel "ts" (mkState .WarnLevel 1 false)
    none "dir/f.go" 3 ["hello"] "a\n" (Or.inl rfl)

theorem gsw_T (c : Char) (tail : List Char) :
    goStartsWith (String.mk ('[' :: c :: ']' :: tail)) "[T]" = ('T' == c) := by
  unfold goStartsWith
  have e : ("[T]" : String).data = ['[', 'T', ']'] := by decide
  rw [e]
  simp [List.isPrefixOf]

theorem gsw_D (c : Char) (tail : List Char) :
    goStartsWith (String.mk ('[' :: c :: ']' :: tail)) "[D]" = ('D' == c) := by
  unfold goStartsWith
  have e : ("[D]" : String).data = ['[', 'D', ']'] := by decide
  rw [e]
  simp [List.isPrefixOf]

theorem gsw_I (c : Char) (tail : List Char) :
    goStartsWith (String.mk ('[' :: c :: ']' :: tail)) "[I]" = ('I' == c) := by
  unfold goStartsWith
  have e : ("[I]" : String).data = ['[', 'I', ']'] := by decide
  rw [e]
  simp [List.isPrefixOf]

theorem gsw_W (c : Char) (tail : List Char) :
    goStartsWith (String.mk ('[' :: c :: ']' :: tail)) "[W]" = ('W' == c) := by
  unfold goStartsWith
  have e : ("[W]" : String).data = ['[', 'W', ']'] := by decide
  rw [e]
  simp [List.isPrefixOf]

theorem gsw_E (c : Char) (tail : List Char) :
    goStartsWith (String.mk ('[' :: c :: ']' :: tail)) "[E]" = ('E' == c) := by
  unfold goStartsWith
  have e : ("[E]" : String).data = ['[', 'E', ']'] := by decide
  rw [e]
  simp [List.isPrefixOf]

theorem gsw_F (c : Char) (tail : List Char) :
    goStartsWith (String.mk ('[' :: c :: ']' :: tail)) "[F]" = ('F' == c) := by
  unfold goStartsWith
  have e : ("[F]" : String).data = ['[', 'F', ']'] := by decide
  rw [e]
  simp [List.isPrefixOf]

theorem gsw_P (c : Char) (tail : List Char) :
    goStartsWith (String.mk ('[' :: c :: ']' :: tail)) "[P]" = ('P' == c) := by
  unfold goStartsWith
  have e : ("[P]" : String).data = ['[', 'P', ']'] := by decide
  rw [e]
  simp [List.isPrefixOf]

theorem reStripTag_eq (c : Char) (w : Char) (u : List Char)
    (hc : tagLetter c = true) (hw : goSpaceChar w = true) :
    reStripTag (String.mk ('[' :: c :: ']' :: w :: u)) = String.mk u := by
  unfold reStripTag
  simp [hc, hw]

/-- Claim C7, counterexample: `Println("[W] something")` does not behave like
`Warnln("something")`: the `Println` router drops the whole first argument
(`args[1:]`), losing the text after the tag, so the two calls hand different
lines to the sink. -/
theorem C7_counterexample :
    Println (mkState .DebugLevel 0 false) "ts" CallerResult.fail sink1
        [GoVal.str "[W] something"]
      = ⟨some ["[W] ts -"], Outcome.ret 1 none⟩ ∧
    Warnln (mkState .DebugLevel 0 false) "ts" CallerResult.fail sink1 ["something"]
      = ⟨some ["[W] ts -", "something"], Outcome.ret 1 none⟩ ∧
    Println (mkState .DebugLevel 0 false) "ts" CallerResult.fail sink1
        [GoVal.str "[W] something"]
      ≠ Warnln (mkState .DebugLevel 0 false) "ts" CallerResult.fail sink1 ["something"] := by
  exact ⟨rfl, rfl, by decide⟩

/-- Claim C7, amended: `Printf` behaves as the claim states: a leading
severity tag followed by one whitespace character delegates to the matching
`f`-suffixed entry point with tag and separator stripped and the same
arguments, and a format with no recognised leading tag is written verbatim
with no gating, no timestamp and no metadata.  `Println`, however, delegates
on any first string argument with a tag prefix (no separator required) and
passes only the arguments after the first — the remainder of the first
argument is discarded; inputs without a recognised tag (or whose first
argument is not a string) are written verbatim. -/
theorem C7_router_amended :
    (∀ st ts caller sinkF (u : List Char) (w : Char) (args : List String),
      goSpaceChar w = true →
      Printf st ts caller sinkF (String.mk ('[' :: 'T' :: ']' :: w :: u)) args
        = Tracef st ts caller sinkF (String.mk u) args) ∧
    (∀ st ts caller sinkF (u : List Char) (w : Char) (args : List String),
      goSpaceChar w = true →
      Printf st ts caller sinkF (String.mk ('[' :: 'D' :: ']' :: w :: u)) args
        = Debugf st ts caller sinkF (String.mk u) args) ∧
    (∀ st ts caller sinkF (u : List Char) (w : Char) (args : List String),
      goSpaceChar w = true →
      Printf st ts caller sinkF (String.mk ('[' :: 'I' :: ']' :: w :: u)) args
        = Infof st ts caller sinkF (String.mk u) args) ∧
    (∀ st ts caller sinkF (u : List Char) (w : Char) (args : List String),
      goSpaceChar w = true →
      Printf st ts caller sinkF (String.mk ('[' :: 'W' :: ']' :: w :: u)) args
        = Warnf st ts caller sinkF (String.mk u) args) ∧
    (∀ st ts caller sinkF (u : List Char) (w : Char) (args : List String),
      goSpaceChar w = true →
      Printf st ts caller sinkF (String.mk ('[' :: 'E' :: ']' :: w :: u)) args
        = Errorf st ts caller sinkF (String.mk u) args) ∧
    (∀ st ts caller sinkF (u : List Char) (w : Char) (args : List String),
      goSpaceChar w = true →
      Printf st ts caller sinkF (String.mk ('[' :: 'F' :: ']' :: w :: u)) args
        = Fatalf st ts caller sinkF (String.mk u) args) ∧
    (∀ st ts caller sinkF (u : List Char) (w : Char) (args : List String),
      goSpaceChar w = true →
      Printf st ts caller sinkF (String.mk ('[' :: 'P' :: ']' :: w :: u)) args
        = Panicf st ts caller sinkF (String.mk u) args) ∧
    (∀ st ts caller sinkF (format : String) (args : List String),
      goStartsWith format "[T]" = false → goStartsWith format "[D]" = false →
      goStartsWith format "[I]" = false → goStartsWith format "[W]" = false →
      goStartsWith format "[E]" = false → goStartsWith format "[F]" = false →
      goStartsWith format "[P]" = false →
      Printf st ts caller sinkF format args
        = ⟨some (format, args),
           Outcome.ret (sinkF format args).1 (sinkF format args).2⟩) ∧
    (∀ st ts caller sinkLn (u : List Char) (rest : List GoVal),
      Println st ts caller sinkLn (GoVal.str (String.mk ('[' :: 'T' :: ']' :: u)) :: rest)
        = Traceln st ts caller sinkLn (rest.map GoVal.render)) ∧
    (∀ st ts caller sinkLn (u : List Char) (rest : List GoVal),
      Println st ts caller sinkLn (GoVal.str (String.mk ('[' :: 'D' :: ']' :: u)) :: rest)
        = Debugln st ts caller sinkLn (rest.map GoVal.render)) ∧
    (∀ st ts caller sinkLn (u : List Char) (rest : List GoVal),
      Println st ts caller sinkLn (GoVal.str (String.mk ('[' :: 'I' :: ']' :: u)) :: rest)
        = Infoln st ts caller sinkLn (rest.map GoVal.render)) ∧
    (∀ st ts caller sinkLn (u : List Char) (rest : List GoVal),
      Println st ts caller sinkLn (GoVal.str (String.mk ('[' :: 'W' :: ']' :: u)) :: rest)
        = Warnln st ts caller sinkLn (rest.map GoVal.render)) ∧
    (∀ st ts caller sinkLn (u : List Char) (rest : List GoVal),
      Println st ts caller sinkLn (GoVal.str (String.mk ('[' :: 'E' :: ']' :: u)) :: rest)
        = Errorln st ts caller sinkLn (rest.map GoVal.render)) ∧
    (∀ st ts caller sinkLn (u : List Char) (rest : List GoVal),
      Println st ts caller sinkLn (GoVal.str (String.mk ('[' :: 'F' :: ']' :: u)) :: rest)
        = Fatalln st ts caller sinkLn (rest.map GoVal.render)) ∧
    (∀ st ts caller sinkLn (u : List Char) (rest : List GoVal),
      Println st ts caller sinkLn (GoVal.str (String.mk ('[' :: 'P' :: ']' :: u)) :: rest)
        = Panicln st ts caller sinkLn (rest.map GoVal.render)) ∧
    (∀ st ts caller sinkLn (v : String) (rest : List GoVal),
      goStartsWith v "[T]" = false → goStartsWith v "[D]" = false →
      goStartsWith v "[I]" = false → goStartsWith v "[W]" = false →
      goStartsWith v "[E]" = false → goStartsWith v "[F]" = false →
      goStartsWith v "[P]" = false →
      Println st ts caller sinkLn (GoVal.str v :: rest)
        = ⟨some (v :: rest.map GoVal.render),
           Outcome.ret (sinkLn (v :: rest.map GoVal.render)).1
             (sinkLn (v :: rest.map GoVal.render)).2⟩) ∧
    (∀ st ts caller sinkLn (r : String) (rest : List GoVal),
      Println st ts caller sinkLn (GoVal.other r :: rest)
        = ⟨some (r :: rest.map GoVal.render),
           Outcome.ret (sinkLn (r :: rest.map GoVal.render)).1
             (sinkLn (r :: rest.map GoVal.render)).2⟩) ∧
    (∀ st ts caller sinkLn,
      Println st ts caller sinkLn []
        = ⟨some [], Outcome.ret (sinkLn []).1 (sinkLn []).2⟩) := by
  refine ⟨?_, ?_, ?_, ?_, ?_, ?_, ?_, ?_, ?_, ?_, ?_, ?_, ?_, ?_, ?_, ?_, ?_, ?_⟩
  · intro st ts caller sinkF u w args hw
    simp [Printf, gsw_T, reStripTag_eq 'T' w u (by decide) hw]
  · intro st ts caller sinkF u w args hw
    simp [Printf, gsw_T, gsw_D, reStripTag_eq 'D' w u (by decide) hw]
  · intro st ts caller sinkF u w args hw
    simp [Printf, gsw_T, gsw_D, gsw_I, reStripTag_eq 'I' w u (by decide) hw]
  · intro st ts caller sinkF u w args hw
    simp [Printf, gsw_T, gsw_D, gsw_I, gsw_W, reStripTag_eq 'W' w u (by decide) hw]
  · intro st ts caller sinkF u w args hw
    simp [Printf, gsw_T, gsw_D, gsw_I, gsw_W, gsw_E, reStripTag_eq 'E' w u (by decide) hw]
  · intro st ts caller sinkF u w args hw
    simp [Printf, gsw_T, gsw_D, gsw_I, gsw_W, gsw_E, gsw_F,
      reStripTag_eq 'F' w u (by decide) hw]
  · intro st ts caller sinkF u w args hw
    simp [Printf, gsw_T, gsw_D, gsw_I, gsw_W, gsw_E, gsw_F, gsw_P,
      reStripTag_eq 'P' w u (by decide) hw]
  · intro st ts caller sinkF format args h1 h2 h3 h4 h5 h6 h7
    simp [Printf, h1, h2, h3, h4, h5, h6, h7]
  · intro st ts caller sinkLn u rest
    simp [Println, gsw_T]
  · intro st ts caller sinkLn u rest
    simp [Println, gsw_T, gsw_D]
  · intro st ts caller sinkLn u rest
    simp [Println, gsw_T, gsw_D, gsw_I]
  · intro st ts caller sinkLn u rest
    simp [Println, gsw_T, gsw_D, gsw_I, gsw_W]
  · intro st ts caller sinkLn u rest
    simp [Println, gsw_T, gsw_D, gsw_I, gsw_W, gsw_E]
  · intro st ts caller sinkLn u rest
    simp [Println, gsw_T, gsw_D, gsw_I, gsw_W, gsw_E, gsw_F]
  · intro st ts caller sinkLn u rest
    simp [Println, gsw_T, gsw_D, gsw_I, gsw_W, gsw_E, gsw_F, gsw_P]
  · intro st ts caller sinkLn v rest h1 h2 h3 h4 h5 h6 h7
    simp [Println, GoVal.render, h1, h2, h3, h4, h5, h6, h7]
  · intro st ts caller sinkLn r rest
    rfl
  · intro st ts caller sinkLn
    rfl

/-- Claim C7, witness: the amended router law at a concrete input:
`Printf("[W] hi")` equals `Warnf("hi")` verbatim origin, separator stripped. -/
theorem C7_router_witness :
    Printf (mkState .DebugLevel 0 false) "ts" CallerResult.fail sinkF1
        (String.mk ['[', 'W', ']', ' ', 'h', 'i']) []
      = Warnf (mkState .DebugLevel 0 false) "ts" CallerResult.fail sinkF1
        (String.mk ['h', 'i']) [] := by
  exact C7_router_amended.2.2.2.1 (mkState .DebugLevel 0 false) "ts" CallerResult.fail
    sinkF1 ['h', 'i'] ' ' [] (by decide)

/-- Claim C4 (code bug): an `ln`-suffixed call with an empty argument list,
an open gate, source-info Short and successful caller resolution reaches
`args[len(args)-1]` with `len(args) == 0` in `prepareArgs` (`log.go` line
605), an unguarded out-of-range access: the composition aborts instead of
completing, so the access is not guarded as the claim asserts. -/
theorem C4_unguarded_index :
    IsWarning (mkState .WarnLevel 1 false) = true ∧
    prepareArgs LogLevel.WarnLevel "ts" (mkState .WarnLevel 1 false)
      (.ok none "dir/f.go" 3) [] = none ∧
    (Warnln (mkState .WarnLevel 1 false) "ts" (.ok none "dir/f.go" 3) sink1 []).outcome
      = Outcome.crash := by
  exact ⟨rfl, rfl, rfl⟩

/-- Claim C8 (code bug): `Traceln` passes `DebugLevel` instead of
`TraceLevel` to `prepareArgs` (`log.go` line 319), so an emitting Trace
line-call begins with the Debug tag `"[D]"` rather than the Trace tag
`"[T]"`; every other entry point (including `Tracef`) uses the right tag. -/
theorem C8_traceln_wrong_tag :
    levelTag LogLevel.TraceLevel = "[T]" ∧
    (Traceln (mkState .TraceLevel 0 false) "ts" CallerResult.fail sink1 ["x"]).written
      = some ["[D] ts -", "x"] ∧
    goStartsWith "[D] ts -" "[T]" = false ∧
    (Tracef (mkState .TraceLevel 0 false) "ts" CallerResult.fail sinkF1 "x" []).written
      = some ("%s %s - x\n", ["[T]", "ts"]) := by
  exact ⟨rfl, rfl, by decide, rfl⟩

/-- Claim C9 (code bug): `Fatalln` performs the write but discards the
sink's result and returns `(0, nil)` (the spec itself flags the
always-zero return as a known defect), and `Panicln` never returns a byte
count at all: it panics.  Here the sink reports five bytes written, yet
`Fatalln` returns zero. -/
theorem C9_fatalln_discards_count :
    sink5 ["[F] ts -", "x"] = (5, none) ∧
    Fatalln (mkState .DebugLevel 0 false) "ts" CallerResult.fail sink5 ["x"]
      = ⟨some ["[F] ts -", "x"], Outcome.ret 0 none⟩ ∧
    (Panicln (mkState .DebugLevel 0 false) "ts" CallerResult.fail sink5 ["x"]).outcome
      = Outcome.panicked "unrecoverable error" := by
  exact ⟨rfl, rfl, rfl⟩

/-- Claim C10, counterexample: `SetStream` with `colorise = true` on a sink
that is not an `*os.File` (the dynamic type assertion fails) selects the
plain primitives, not the colour-wrapped ones, refuting "setting the sink
with colorize = true selects the color-wrapped ... primitives for every
severity". -/
theorem C10_counterexample :
    (SetStream ⟨0, false⟩ true (mkState .DebugLevel 0 false)).logTracef
      = WritePrim.plain ∧
    (SetStream ⟨0, false⟩ true (mkState .DebugLevel 0 false)).logStream
      = StoredStream.raw ⟨0, false⟩ ∧
    WritePrim.plain ≠ WritePrim.colored WriteColor.white := by
  exact ⟨rfl, rfl, by decide⟩

/-- Claim C10, amended: `SetStream` updates the stored sink and all fourteen
write primitives together in the same single state transition: when
`colorise` is set AND the sink is an OS file handle, the sink is stored
colourable-wrapped and every severity's formatted and line primitive is
colour-wrapped; otherwise (colorise off, or a non-file sink) the sink is
stored as given and every primitive is plain; no other configuration field
changes. -/
theorem C10_setstream_amended (s : Stream) (c : Bool) (st : LogState) :
    ((c && s.isFile) = true →
      (SetStream s c st).logStream = StoredStream.colorable s ∧
      (SetStream s c st).logTracef = WritePrim.colored .white ∧
      (SetStream s c st).logDebugf = WritePrim.colored .white ∧
      (SetStream s c st).logInfof = WritePrim.colored .green ∧
      (SetStream s c st).logWarnf = WritePrim.colored .yellow ∧
      (SetStream s c st).logErrorf = WritePrim.colored .red ∧
      (SetStream s c st).logFatalf = WritePrim.colored .blue ∧
      (SetStream s c st).logPanicf = WritePrim.colored .magenta ∧
      (SetStream s c st).logTraceln = WritePrim.colored .white ∧
      (SetStream s c st).logDebugln = WritePrim.colored .white ∧
      (SetStream s c st).logInfoln = WritePrim.colored .green ∧
      (SetStream s c st).logWarnln = WritePrim.colored .yellow ∧
      (SetStream s c st).logErrorln = WritePrim.colored .red ∧
      (SetStream s c st).logFatalln = WritePrim.colored .blue ∧
      (SetStream s c st).logPanicln = WritePrim.colored .magenta) ∧
    ((c && s.isFile) = false →
      (SetStream s c st).logStream = StoredStream.raw s ∧
      (SetStream s c st).logTracef = WritePrim.plain ∧
      (SetStream s c st).logDebugf = WritePrim.plain ∧
      (SetStream s c st).logInfof = WritePrim.plain ∧
      (SetStream s c st).logWarnf = WritePrim.plain ∧
      (SetStream s c st).logErrorf = WritePrim.plain ∧
      (SetStream s c st).logFatalf = WritePrim.plain ∧
      (SetStream s c st).logPanicf = WritePrim.plain ∧
      (SetStream s c st).logTraceln = WritePrim.plain ∧
      (SetStream s c st).logDebugln = WritePrim.plain ∧
      (SetStream s c st).logInfoln = WritePrim.plain ∧
      (SetStream s c st).logWarnln = WritePrim.plain ∧
      (SetStream s c st).logErrorln = WritePrim.plain ∧
      (SetStream s c st).logFatalln = WritePrim.plain ∧
      (SetStream s c st).logPanicln = WritePrim.plain) ∧
    ((SetStream s c st).logLevel = st.logLevel ∧
      (SetStream s c st).logTimeFormat = st.logTimeFormat ∧
      (SetStream s c st).logPrintSourceInfo = st.logPrintSourceInfo ∧
      (SetStream s c st).logPrintCallerInfo = st.logPrintCallerInfo) := by
  refine ⟨?_, ?_, ?_⟩
  · intro h
    simp [SetStream, h]
  · intro h
    simp [SetStream, h]
  · cases h : (c && s.isFile) <;> simp [SetStream, h]

/-- Claim C10, witness: the amended `SetStream` law at concrete inputs: on a
file sink with colorise on, the Warn formatted primitive is yellow-wrapped
and the stream is stored colourable-wrapped. -/
theorem C10_setstream_witness :
    (SetStream ⟨0, true⟩ true (mkState .DebugLevel 0 false)).logStream
        = StoredStream.colorable ⟨0, true⟩ ∧
    (SetStream ⟨0, true⟩ true (mkState .DebugLevel 0 false)).logWarnf
        = WritePrim.colored .yellow := by
  have h := (C10_setstream_amended ⟨0, true⟩ true (mkState .DebugLevel 0 false)).1 rfl
  exact ⟨h.1, h.2.2.2.2.1⟩

end GoLog

